import Mathlib

/-!
# Verification of the slackbot matching/dispatch core

A shallow embedding of the router/route/matcher/context core of the
`slackbot` Go package (files `route.go`, `context.go`, and the router file),
together with theorems settling the specification's claims about it.

Conventions of the embedding:
* Go pointer-mutating methods become state-passing functions: a method
  `(r *Route) f(...)` that mutates `r` becomes `Route.f : Route → ... → Route`.
* `nil`-able Go values (`error`, `Handler`, `*SimpleRouter`, `Preprocessor`,
  `*regexp.Regexp`) become `Option`s.
* Go handler function values are opaque to the matching core: the core only
  ever compares them with `nil` and stores them.  They are modelled as `Nat`
  identifiers (distinct ids standing for distinct function values).
* `regexp.Compile` is a call into the Go standard library (external to the
  repository); its outcome is passed to `Hear`/`addRegexpMatcher` as an
  explicit `Except` argument, and a compiled regular expression is modelled
  by its `MatchString` function `String → Bool`.
* `context.Context` (also external) is modelled by the only interface the
  core uses: a stack of key/value pairs where `WithValue` pushes and `Value`
  returns the innermost binding of a key.
-/

namespace Slackbot

/-- A Go `error` value (only its identity matters to this core). -/
abbrev GoError := String

/-- A compiled regular expression, modelled by its `MatchString` function. -/
abbrev Regexp := String → Bool

/-- An opaque `Handler` function value, identified by an id.
`Option Handler` models the nilable Go `Handler` field. -/
abbrev Handler := Nat

/-- The fields of `slack.MessageEvent` that the matching core reads. -/
structure MessageEvent where
  Text : String
  User : String
  Channel : String
deriving DecidableEq

/-- The `Bot` reference stored in context (opaque to the matching core;
only its identity matters for the round-trip property). -/
structure Bot where
  botUserID : String
deriving DecidableEq

/-- The values that `context.go` ever stores in a context. -/
inductive CtxVal where
  | botVal (b : Bot)
  | msgVal (m : MessageEvent)
deriving DecidableEq

/-- `context.Context` as used by this core: a stack of key/value bindings. -/
structure Context where
  entries : List (Nat × CtxVal)
deriving DecidableEq

/-- `bot_context_key key = iota` (first enumerator). -/
def bot_context_key : Nat := 0

/-- `message_context_key` (second enumerator). -/
def message_context_key : Nat := 1

/-- `context.WithValue`: derive a context with one more binding. -/
def Context.withValue (ctx : Context) (k : Nat) (v : CtxVal) : Context :=
  ⟨(k, v) :: ctx.entries⟩

/-- `ctx.Value(k)`: innermost binding of `k`, if any. -/
def Context.value (ctx : Context) (k : Nat) : Option CtxVal :=
  (ctx.entries.find? (fun e => e.1 == k)).map Prod.snd

/-- `BotFromContext`: the stored bot, or `nil` (the type assertion
`ctx.Value(bot_context_key).(*Bot)` fails on a missing or foreign value). -/
def BotFromContext (ctx : Context) : Option Bot :=
  match ctx.value bot_context_key with
  | some (.botVal b) => some b
  | _ => none

/-- `AddBotToContext`: store the bot reference under `bot_context_key`. -/
def AddBotToContext (ctx : Context) (bot : Bot) : Context :=
  ctx.withValue bot_context_key (.botVal bot)

/-- `MessageFromContext`: the stored message event, or `nil`. -/
def MessageFromContext (ctx : Context) : Option MessageEvent :=
  match ctx.value message_context_key with
  | some (.msgVal m) => some m
  | _ => none

/-- `AddMessageToContext`: store the message event under `message_context_key`. -/
def AddMessageToContext (ctx : Context) (msg : MessageEvent) : Context :=
  ctx.withValue message_context_key (.msgVal msg)

/-- `MessageType` enumeration. -/
inductive MessageType where
  | DirectMessage
  | DirectMention
deriving DecidableEq

/-- Modelled from the spec: `StripDirectMention` is code of this repository
not present under `src/` (only its caller `RegexpMatcher.Match` is).  Per the
spec it "strips a leading '@mention' style prefix from the event text":
a leading `<@id>` token with optional `:`/`,` separators and spaces. -/
def StripDirectMention (text : String) : String :=
  if text.startsWith "<@" then
    let rest := (text.drop 2).dropWhile (fun c => c != '>')
    if rest.startsWith ">" then
      ((rest.drop 1).dropWhile (fun c => c == ':' || c == ',')).dropWhile (fun c => c == ' ')
    else text
  else text

/-- Modelled from the spec: `IsDirectMessage` is code of this repository not
present under `src/`.  Per the spec, a direct message is an "event delivered
via a private one-to-one channel"; Slack marks such channels with a `D`
prefix on the channel identifier. -/
def IsDirectMessage (msg : MessageEvent) : Bool :=
  msg.Channel.startsWith "D"

/-- Modelled from the spec: `IsDirectMention` is code of this repository not
present under `src/`.  Per the spec, a direct mention is an event whose "text
begins with an explicit address to this bot's identity". -/
def IsDirectMention (msg : MessageEvent) (botUserID : String) : Bool :=
  msg.Text.startsWith ("<@" ++ botUserID ++ ">")

/-- The `Matcher` interface, as a closed variant over the two concrete
matchers of `route.go` plus an arbitrary externally supplied matcher (the
`AddMatcher` extension point).  Every variant records the identity last
passed to its `SetBotID` method in a `botUserID` field, exactly as the two
concrete implementations do. -/
inductive Matcher where
  | regexpM (regex : Option Regexp) (botUserID : String)
  | typesM (types : List MessageType) (botUserID : String)
  | customM (matchFn : Context → Bool × Context) (botUserID : String)

/-- The `botUserID` field of any matcher variant. -/
def Matcher.botUserID : Matcher → String
  | .regexpM _ b => b
  | .typesM _ b => b
  | .customM _ b => b

/-- `Matcher.SetBotID`: store the bot identity on the matcher. -/
def Matcher.SetBotID : Matcher → String → Matcher
  | .regexpM re _, id => .regexpM re id
  | .typesM ts _, id => .typesM ts id
  | .customM f _, id => .customM f id

/-- `Matcher.Match`.  `RegexpMatcher.Match` strips any direct-mention prefix
from the message text and tests the regular expression; `TypesMatcher.Match`
is an OR over the requested types.  (In Go a `nil` message or `nil` regex
would dereference a nil pointer; those states are unreachable during
dispatch — the dispatcher always stores a message, and a `nil` regex only
arises alongside a sticky error that makes `Route.Match` fail first —
and are modelled as no-match.) -/
def Matcher.Match : Matcher → Context → Bool × Context
  | .regexpM regex _, ctx =>
    match MessageFromContext ctx, regex with
    | some msg, some re => (re (StripDirectMention msg.Text), ctx)
    | _, _ => (false, ctx)
  | .typesM types bid, ctx =>
    match MessageFromContext ctx with
    | some msg =>
      (types.any (fun t =>
        match t with
        | .DirectMessage => IsDirectMessage msg
        | .DirectMention => IsDirectMention msg bid), ctx)
    | none => (false, ctx)
  | .customM f _, ctx => f ctx

mutual
/-- The `Route` struct of `route.go`. -/
inductive Route where
  | mk (handler : Option Handler) (err : Option GoError) (matchers : List Matcher)
       (subrouter : Option SimpleRouter) (preprocessor : Option (Context → Context))
       (botUserID : String) (talkToSelf : Bool)

/-- The `SimpleRouter` struct. -/
inductive SimpleRouter where
  | mk (routes : List Route) (botUserID : String) (err : Option GoError) (talkToSelf : Bool)
end

def Route.handler : Route → Option Handler
  | .mk h _ _ _ _ _ _ => h

def Route.err : Route → Option GoError
  | .mk _ e _ _ _ _ _ => e

def Route.matchers : Route → List Matcher
  | .mk _ _ ms _ _ _ _ => ms

def Route.subrouter : Route → Option SimpleRouter
  | .mk _ _ _ s _ _ _ => s

def Route.preprocessor : Route → Option (Context → Context)
  | .mk _ _ _ _ p _ _ => p

def Route.botUserID : Route → String
  | .mk _ _ _ _ _ b _ => b

def Route.talkToSelf : Route → Bool
  | .mk _ _ _ _ _ _ t => t

def SimpleRouter.routes : SimpleRouter → List Route
  | .mk rs _ _ _ => rs

def SimpleRouter.botUserID : SimpleRouter → String
  | .mk _ b _ _ => b

def SimpleRouter.err : SimpleRouter → Option GoError
  | .mk _ _ e _ => e

def SimpleRouter.talkToSelf : SimpleRouter → Bool
  | .mk _ _ _ t => t

/-- `RouteMatch` output record: which route matched and which handler to run. -/
structure RouteMatch where
  Route : Option Route
  Handler : Option Slackbot.Handler

/-- The self-talk guard of `Route.Match`:
`ev := MessageFromContext(ctx); ev != nil && !r.talkToSelf && r.botUserID == ev.User`. -/
def selfTalkBlock (talkToSelf : Bool) (botUserID : String) (ctx : Context) : Bool :=
  match MessageFromContext ctx with
  | some ev => !talkToSelf && botUserID == ev.User
  | none => false

/-- The optional preprocessing step of `Route.Match`. -/
def applyPre (pre : Option (Context → Context)) (ctx : Context) : Context :=
  match pre with
  | some p => p ctx
  | none => ctx

/-- The matcher loop of `Route.Match`: matchers in order, AND semantics,
threading the context; the first failing matcher short-circuits, keeping
its context. -/
def matchersRun : List Matcher → Context → Bool × Context
  | [], ctx => (true, ctx)
  | mm :: rest, ctx =>
    match mm.Match ctx with
    | (false, ctx2) => (false, ctx2)
    | (true, ctx2) => matchersRun rest ctx2

mutual
/-- `Route.Match`: sticky-error check, nil-handler check, self-talk guard,
preprocessor, matcher loop, then either subrouter delegation or filling the
output record with this route and its handler.  The output record pointer is
modelled by threading a `RouteMatch` value. -/
def Route.Match : Route → Context → RouteMatch → Bool × Context × RouteMatch
  | .mk handler err matchers subrouter preprocessor botUserID talkToSelf, ctx, m =>
    if err.isSome then (false, ctx, m)
    else if handler.isNone then (false, ctx, m)
    else if selfTalkBlock talkToSelf botUserID ctx then (false, ctx, m)
    else
      match matchersRun matchers (applyPre preprocessor ctx) with
      | (false, ctx2) => (false, ctx2, m)
      | (true, ctx2) =>
        match subrouter with
        | some sub => SimpleRouter.Match sub ctx2 m
        | none =>
          (true, ctx2,
           ⟨some (.mk handler err matchers subrouter preprocessor botUserID talkToSelf),
            handler⟩)

/-- `SimpleRouter.Match`: sticky-error check, then the route loop. -/
def SimpleRouter.Match : SimpleRouter → Context → RouteMatch → Bool × Context × RouteMatch
  | .mk routes _ err _, ctx, m =>
    if err.isSome then (false, ctx, m)
    else routesRun routes ctx m

/-- The route loop of `SimpleRouter.Match`.  The Go loop shadows `ctx`
(`if matched, ctx := route.Match(ctx, match)`), so a failing route's context
is discarded and the next route sees the original context; the `match`
pointer, by contrast, is shared across iterations and is threaded. -/
def routesRun : List Route → Context → RouteMatch → Bool × Context × RouteMatch
  | [], ctx, m => (false, ctx, m)
  | r :: rest, ctx, m =>
    match Route.Match r ctx m with
    | (true, ctx2, m2) => (true, ctx2, m2)
    | (false, _, m2) => routesRun rest ctx m2
end

/-- `Route.Err`: surface the sticky build error. -/
def Route.Err (r : Route) : Option GoError :=
  r.err

/-- `SimpleRouter.Err`. -/
def SimpleRouter.Err (s : SimpleRouter) : Option GoError :=
  s.err

/-- `Route.setBotID`: store the identity on the route and call `SetBotID` on
every owned matcher.  (The subrouter, if any, is not visited.) -/
def Route.setBotID : Route → String → Route
  | .mk h e ms sub pre _ t, id => .mk h e (ms.map (Matcher.SetBotID · id)) sub pre id t

/-- `SimpleRouter.SetBotID`: store the identity and propagate it to every
currently-registered route. -/
def SimpleRouter.SetBotID : SimpleRouter → String → SimpleRouter
  | .mk rs _ e t, id => .mk (rs.map (Route.setBotID · id)) id e t

/-- `Route.AddMatcher`: append a matcher. -/
def Route.AddMatcher : Route → Matcher → Route
  | .mk h e ms sub pre b t, mm => .mk h e (ms ++ [mm]) sub pre b t

/-- `Route.addRegexpMatcher`.  `regexp.Compile` is an external (standard
library) call, so its outcome is taken as an argument: on `error` the route's
`err` field is assigned, and in every case a `RegexpMatcher` holding the
(possibly nil) compiled regex and a zero-value `botUserID` is appended. -/
def Route.addRegexpMatcher (r : Route) (compileRes : Except GoError Regexp) : Route :=
  let r2 := match r, compileRes with
            | .mk h _ ms sub pre b t, .error e => Route.mk h (some e) ms sub pre b t
            | rr, .ok _ => rr
  r2.AddMatcher (.regexpM compileRes.toOption "")

/-- `Route.Hear`: delegate to `addRegexpMatcher` and return the route. -/
def Route.Hear (r : Route) (compileRes : Except GoError Regexp) : Route :=
  r.addRegexpMatcher compileRes

/-- `Route.addTypesMatcher`: append a `TypesMatcher` that is created holding
the route's current `botUserID`. -/
def Route.addTypesMatcher (r : Route) (types : List MessageType) : Route :=
  r.AddMatcher (.typesM types r.botUserID)

/-- `Route.Messages`. -/
def Route.Messages (r : Route) (types : List MessageType) : Route :=
  r.addTypesMatcher types

/-- `Route.Handler`: if the sticky error is set, return it without touching
the route; otherwise install the handler and return `nil`. -/
def Route.Handler : Route → Slackbot.Handler → Route × Option GoError
  | .mk _ none ms sub pre b t, hv => (.mk (some hv) none ms sub pre b t, none)
  | .mk h (some e) ms sub pre b t, _ => (.mk h (some e) ms sub pre b t, some e)

/-- `Route.Preprocess`: set the preprocessor. -/
def Route.Preprocess : Route → (Context → Context) → Route
  | .mk h e ms sub _ b t, p => .mk h e ms sub (some p) b t

/-- `Route.TalkToSelf`: enable self-talk on the route. -/
def Route.TalkToSelf : Route → Route
  | .mk h e ms sub pre b _ => .mk h e ms sub pre b true

/-- `Route.NoTalkToSelf`: disable self-talk on the route. -/
def Route.NoTalkToSelf : Route → Route
  | .mk h e ms sub pre b _ => .mk h e ms sub pre b false

/-- `Route.Subrouter`: attach a fresh `SimpleRouter{err: r.err}` (zero values
elsewhere).  The Go method returns the subrouter pointer; the state-passing
embedding returns the updated route, whose `subrouter` field is that router. -/
def Route.Subrouter : Route → Route
  | .mk h e ms _ pre b t => .mk h e ms (some (.mk [] "" e false)) pre b t

/-- `SimpleRouter.newRoute`: the route value `Route{err: r.err, talkToSelf:
selftalk}` (all other fields zero) that `newRoute` appends and returns. -/
def newRouteVal (selftalk : Bool) (err : Option GoError) : Route :=
  .mk none err [] none none "" selftalk

/-- Append a route to a router's list (the mutation done by `newRoute`). -/
def SimpleRouter.appendRoute : SimpleRouter → Route → SimpleRouter
  | .mk rs b e t, r => .mk (rs ++ [r]) b e t

/-- `SimpleRouter.Hear`: `newRoute(r.talkToSelf).Hear(regex)`.  The Go method
aliases the appended route and the returned pointer; the embedding builds the
route first and returns it alongside the updated router. -/
def SimpleRouter.Hear (s : SimpleRouter) (compileRes : Except GoError Regexp) :
    SimpleRouter × Route :=
  let rt := (newRouteVal s.talkToSelf s.err).Hear compileRes
  (s.appendRoute rt, rt)

/-- `SimpleRouter.Messages`. -/
def SimpleRouter.Messages (s : SimpleRouter) (types : List MessageType) :
    SimpleRouter × Route :=
  let rt := (newRouteVal s.talkToSelf s.err).Messages types
  (s.appendRoute rt, rt)

/-- `SimpleRouter.AddMatcher`. -/
def SimpleRouter.AddMatcher (s : SimpleRouter) (mm : Matcher) : SimpleRouter × Route :=
  let rt := (newRouteVal s.talkToSelf s.err).AddMatcher mm
  (s.appendRoute rt, rt)

/-- `SimpleRouter.Handler`: `newRoute(r.talkToSelf).Handler(handler)`. -/
def SimpleRouter.Handler (s : SimpleRouter) (hv : Slackbot.Handler) :
    SimpleRouter × Option GoError :=
  let rte := (newRouteVal s.talkToSelf s.err).Handler hv
  (s.appendRoute rte.1, rte.2)

/-- `SimpleRouter.TalkToSelf`: `newRoute(true)`. -/
def SimpleRouter.TalkToSelf (s : SimpleRouter) : SimpleRouter × Route :=
  (s.appendRoute (newRouteVal true s.err), newRouteVal true s.err)

/-- `SimpleRouter.NoTalkToSelf`: `newRoute(false)`. -/
def SimpleRouter.NoTalkToSelf (s : SimpleRouter) : SimpleRouter × Route :=
  (s.appendRoute (newRouteVal false s.err), newRouteVal false s.err)

/-- `SimpleRouter.AlwaysTalkToSelf`: set the default self-talk flag. -/
def SimpleRouter.AlwaysTalkToSelf : SimpleRouter → SimpleRouter
  | .mk rs b e _ => .mk rs b e true

/-- `SimpleRouter.NeverTalkToSelf`: clear the default self-talk flag. -/
def SimpleRouter.NeverTalkToSelf : SimpleRouter → SimpleRouter
  | .mk rs b e _ => .mk rs b e false

/-!
## Helper lemmas

The frame property of the `RouteMatch` output record: a `Match` call that
reports no-match leaves the record untouched, and one that reports a match
has filled both fields from the matching route.  Proved for routes, routers
and route lists simultaneously, by strong induction on size (the mutual
structure `Route`/`SimpleRouter` recurses through `subrouter`). -/

/-- The frame property of one `Match` result with respect to the output
record it was passed. -/
def FrameP (res : Bool × Context × RouteMatch) (m : RouteMatch) : Prop :=
  (res.1 = false → res.2.2 = m) ∧
  (res.1 = true → ∃ rt hh, res.2.2 = ⟨some rt, some hh⟩ ∧ rt.handler = some hh)

theorem frameP_noMatch (ctx : Context) (m : RouteMatch) : FrameP (false, ctx, m) m :=
  ⟨fun _ => rfl, fun hc => by simp at hc⟩

theorem frame_all : ∀ n : Nat,
    (∀ r : Route, sizeOf r ≤ n → ∀ ctx m, FrameP (Route.Match r ctx m) m) ∧
    (∀ s : SimpleRouter, sizeOf s ≤ n → ∀ ctx m, FrameP (SimpleRouter.Match s ctx m) m) ∧
    (∀ l : List Route, sizeOf l ≤ n → ∀ ctx m, FrameP (routesRun l ctx m) m) := by
  intro n
  induction n using Nat.strong_induction_on with
  | _ n ih =>
    refine ⟨?_, ?_, ?_⟩
    · rintro ⟨h, e, ms, sub, pre, b, t⟩ hsz ctx m
      cases e with
      | some er =>
        have hres : Route.Match (.mk h (some er) ms sub pre b t) ctx m = (false, ctx, m) := by
          rw [Route.Match.eq_1]; simp
        rw [hres]; exact frameP_noMatch ctx m
      | none =>
        cases h with
        | none =>
          have hres : Route.Match (.mk none none ms sub pre b t) ctx m = (false, ctx, m) := by
            rw [Route.Match.eq_1]; simp
          rw [hres]; exact frameP_noMatch ctx m
        | some hv =>
          cases hst : selfTalkBlock t b ctx with
          | true =>
            have hres : Route.Match (.mk (some hv) none ms sub pre b t) ctx m
                = (false, ctx, m) := by
              rw [Route.Match.eq_1]; simp [hst]
            rw [hres]; exact frameP_noMatch ctx m
          | false =>
            rcases hmr : matchersRun ms (applyPre pre ctx) with ⟨mb, ctx2⟩
            cases mb
            · have hres : Route.Match (.mk (some hv) none ms sub pre b t) ctx m
                  = (false, ctx2, m) := by
                rw [Route.Match.eq_1]; simp [hst, hmr]
              rw [hres]; exact frameP_noMatch ctx2 m
            · cases sub with
              | some s =>
                have hres : Route.Match (.mk (some hv) none ms (some s) pre b t) ctx m =
                    SimpleRouter.Match s ctx2 m := by
                  rw [Route.Match.eq_1]; simp [hst, hmr]
                have hlt : sizeOf s < n := by
                  have hx : sizeOf s < sizeOf (Route.mk (some hv) none ms (some s) pre b t) := by
                    simp
                    omega
                  omega
                rw [hres]
                exact (ih (sizeOf s) hlt).2.1 s (le_refl _) ctx2 m
              | none =>
                have hres : Route.Match (.mk (some hv) none ms none pre b t) ctx m =
                    (true, ctx2, ⟨some (.mk (some hv) none ms none pre b t), some hv⟩) := by
                  rw [Route.Match.eq_1]; simp [hst, hmr]
                rw [hres]
                refine ⟨fun hc => by simp at hc, fun _ => ?_⟩
                exact ⟨Route.mk (some hv) none ms none pre b t, hv, rfl, rfl⟩
    · rintro ⟨rs, b, e, t⟩ hsz ctx m
      cases e with
      | some er =>
        have hres : SimpleRouter.Match (.mk rs b (some er) t) ctx m = (false, ctx, m) := by
          rw [SimpleRouter.Match.eq_1]; simp
        rw [hres]; exact frameP_noMatch ctx m
      | none =>
        have hres : SimpleRouter.Match (.mk rs b none t) ctx m = routesRun rs ctx m := by
          rw [SimpleRouter.Match.eq_1]; simp
        have hlt : sizeOf rs < n := by
          have hx : sizeOf rs < sizeOf (SimpleRouter.mk rs b none t) := by
            simp
            omega
          omega
        rw [hres]
        exact (ih (sizeOf rs) hlt).2.2 rs (le_refl _) ctx m
    · intro l hsz ctx m
      match l with
      | [] =>
        have hres : routesRun [] ctx m = (false, ctx, m) := by
          rw [routesRun.eq_1]
        rw [hres]; exact frameP_noMatch ctx m
      | r :: rest =>
        have hr : sizeOf r < n := by
          have hx : sizeOf r < sizeOf (r :: rest) := by
            simp
            omega
          omega
        have hrest : sizeOf rest < n := by
          have hx : sizeOf rest < sizeOf (r :: rest) := by
            simp
          omega
        rcases hrm : Route.Match r ctx m with ⟨mb, ctx2, m2⟩
        cases mb
        · have hm2 : m2 = m := by
            have hfr := ((ih (sizeOf r) hr).1 r (le_refl _) ctx m).1
            rw [hrm] at hfr
            exact hfr rfl
          have hres : routesRun (r :: rest) ctx m = routesRun rest ctx m := by
            rw [routesRun.eq_2]; simp [hrm, hm2]
          rw [hres]
          exact (ih (sizeOf rest) hrest).2.2 rest (le_refl _) ctx m
        · have hres : routesRun (r :: rest) ctx m = (true, ctx2, m2) := by
            rw [routesRun.eq_2]; simp [hrm]
          rw [hres]
          refine ⟨fun hc => by simp at hc, fun _ => ?_⟩
          have hfr := ((ih (sizeOf r) hr).1 r (le_refl _) ctx m).2
          rw [hrm] at hfr
          exact hfr rfl

theorem route_match_frame (r : Route) (ctx : Context) (m : RouteMatch) :
    FrameP (Route.Match r ctx m) m :=
  (frame_all (sizeOf r)).1 r (le_refl _) ctx m

theorem router_match_frame (s : SimpleRouter) (ctx : Context) (m : RouteMatch) :
    FrameP (SimpleRouter.Match s ctx m) m :=
  (frame_all (sizeOf s)).2.1 s (le_refl _) ctx m

theorem routes_run_frame (l : List Route) (ctx : Context) (m : RouteMatch) :
    FrameP (routesRun l ctx m) m :=
  (frame_all (sizeOf l)).2.2 l (le_refl _) ctx m

/-- A failing route loop hands back the original context (the Go loop
shadows `ctx`, so transformations made by failing routes are discarded). -/
theorem routesRun_ctx_of_false (l : List Route) (ctx : Context) (m : RouteMatch)
    (hf : (routesRun l ctx m).1 = false) : (routesRun l ctx m).2.1 = ctx := by
  induction l generalizing m with
  | nil => rfl
  | cons r rest ih =>
    rcases hrm : Route.Match r ctx m with ⟨mb, ctx2, m2⟩
    cases mb
    · have hres : routesRun (r :: rest) ctx m = routesRun rest ctx m2 := by
        rw [routesRun.eq_2]; simp [hrm]
      rw [hres] at hf ⊢
      exact ih m2 hf
    · have hres : routesRun (r :: rest) ctx m = (true, ctx2, m2) := by
        rw [routesRun.eq_2]; simp [hrm]
      rw [hres] at hf
      simp at hf

/-- Routes that individually fail on `(ctx, m)` are skipped by the loop. -/
theorem routesRun_skip (l rest : List Route) (ctx : Context) (m : RouteMatch)
    (h : ∀ r ∈ l, (Route.Match r ctx m).1 = false) :
    routesRun (l ++ rest) ctx m = routesRun rest ctx m := by
  induction l with
  | nil => rfl
  | cons r l2 ih =>
    rcases hrm : Route.Match r ctx m with ⟨mb, ctx2, m2⟩
    have hb : mb = false := by
      have hx := h r (by simp)
      rw [hrm] at hx
      exact hx
    subst hb
    have hm2 : m2 = m := by
      have hx := (route_match_frame r ctx m).1
      rw [hrm] at hx
      exact hx rfl
    have hres : routesRun ((r :: l2) ++ rest) ctx m = routesRun (l2 ++ rest) ctx m := by
      rw [List.cons_append, routesRun.eq_2]
      simp [hrm, hm2]
    rw [hres]
    exact ih (fun r2 hr2 => h r2 (by simp [hr2]))

/-!
## Concrete sample data (for witnesses and counterexamples)
-/

/-- A zero-value route (`&Route{}`). -/
def emptyRoute : Route := .mk none none [] none none "" false

/-- A zero-value output record (`var match RouteMatch`). -/
def emptyMatch : RouteMatch := ⟨none, none⟩

/-- `context.Background()`: an empty context. -/
def ctxEmpty : Context := ⟨[]⟩

/-- A custom matcher that always matches and leaves the context alone. -/
def alwaysTrueMatcher : Matcher := .customM (fun c => (true, c)) ""

/-- A custom matcher that never matches. -/
def alwaysFalseMatcher : Matcher := .customM (fun c => (false, c)) ""

/-- A route with handler id 7 that matches anything (self-talk allowed). -/
def subHandlerRoute : Route := .mk (some 7) none [] none none "" true

/-- A subrouter holding `subHandlerRoute`. -/
def demoSub : SimpleRouter := .mk [subHandlerRoute] "" none false

/-- A route gated by an always-true matcher with a subrouter and NO handler. -/
def gateRouteNoHandler : Route := .mk none none [alwaysTrueMatcher] (some demoSub) none "" false

/-- As `gateRouteNoHandler`, but with its own handler id 9. -/
def gateRouteWithHandler : Route :=
  .mk (some 9) none [alwaysTrueMatcher] (some demoSub) none "" false

/-- A plain always-matching route with handler id 1. -/
def plainRoute1 : Route := .mk (some 1) none [] none none "" false

/-- A plain always-matching route with handler id 2. -/
def plainRoute2 : Route := .mk (some 2) none [] none none "" false

/-- A route carrying a sticky build error. -/
def erroredRoute : Route := .mk (some 5) (some "boom") [] none none "" false

/-- A router carrying a sticky build error (with a route that would match). -/
def erroredRouter : SimpleRouter := .mk [plainRoute1] "" (some "boom") false

/-- A subrouter nested below `outerWithSub`. -/
def innerSub : SimpleRouter := .mk [plainRoute1] "" none false

/-- A route owning a types matcher and the nested subrouter `innerSub`. -/
def outerWithSub : Route :=
  .mk (some 2) none [.typesM [.DirectMention] ""] (some innerSub) none "" false

/-- A router owning `outerWithSub`. -/
def routerWithSub : SimpleRouter := .mk [outerWithSub] "" none false

/-- A sample inbound message event. -/
def demoMsg : MessageEvent := ⟨"ping", "U1", "C1"⟩

/-- A context holding `demoMsg`. -/
def ctxWithMsg : Context := AddMessageToContext ctxEmpty demoMsg

/-- A route whose preprocessor transforms the context and whose matcher then
fails: used to observe that the router discards the transformed context. -/
def transformingFailRoute : Route :=
  .mk (some 3) none [alwaysFalseMatcher] none (some (fun c => AddBotToContext c ⟨"X"⟩)) "" false

/-- A router holding only `transformingFailRoute`. -/
def failRouter : SimpleRouter := .mk [transformingFailRoute] "" none false

/-- An output record pre-populated before a `Match` call. -/
def preloadedMatch : RouteMatch := ⟨some plainRoute2, some 42⟩

/-!
## Claims
-/

/-- **C4** (confirmed): for every Router and every Route whose stored build
error is non-nil (`Err()` returns non-nil), `Match` returns no-match for
every input context and output record, regardless of registered content
(fail-closed), and leaves both untouched. -/
theorem err_nonnil_match_fails_closed (s : SimpleRouter) (r : Route) (ctx : Context)
    (m : RouteMatch) (hs : s.Err ≠ none) (hr : r.Err ≠ none) :
    SimpleRouter.Match s ctx m = (false, ctx, m) ∧ Route.Match r ctx m = (false, ctx, m) := by
  obtain ⟨rs, b, e, t⟩ := s
  obtain ⟨h, e2, ms, sub, pre, b2, t2⟩ := r
  cases e with
  | none => simp [SimpleRouter.Err, SimpleRouter.err] at hs
  | some er =>
    cases e2 with
    | none => simp [Route.Err, Route.err] at hr
    | some er2 =>
      constructor
      · rw [SimpleRouter.Match.eq_1]; simp
      · rw [Route.Match.eq_1]; simp

theorem err_nonnil_match_fails_closed_witness :
    SimpleRouter.Match erroredRouter ctxEmpty emptyMatch = (false, ctxEmpty, emptyMatch) ∧
    Route.Match erroredRoute ctxEmpty emptyMatch = (false, ctxEmpty, emptyMatch) :=
  err_nonnil_match_fails_closed erroredRouter erroredRoute ctxEmpty emptyMatch
    (by decide) (by decide)

/-- **C5** (confirmed): in a Router whose route list has a matching route
`r1` after some non-matching ones, `Match` returns exactly `r1`'s result (so
`r1`'s handler is what lands in the output record) and is independent of
every later route: later routes are never consulted and evaluation
short-circuits at the first full match. -/
theorem first_match_wins (earlier rest : List Route) (r1 : Route) (b : String) (t : Bool)
    (ctx : Context) (m : RouteMatch)
    (hpre : ∀ r ∈ earlier, (Route.Match r ctx m).1 = false)
    (h1 : (Route.Match r1 ctx m).1 = true) :
    SimpleRouter.Match (.mk (earlier ++ r1 :: rest) b none t) ctx m
      = Route.Match r1 ctx m := by
  have hstep : SimpleRouter.Match (.mk (earlier ++ r1 :: rest) b none t) ctx m
      = routesRun (earlier ++ r1 :: rest) ctx m := by
    rw [SimpleRouter.Match.eq_1]; simp
  rw [hstep, routesRun_skip earlier (r1 :: rest) ctx m hpre]
  rcases hrm : Route.Match r1 ctx m with ⟨mb, ctx2, m2⟩
  rw [hrm] at h1
  simp at h1
  subst h1
  rw [routesRun.eq_2]
  simp [hrm]

theorem first_match_wins_witness :
    SimpleRouter.Match (.mk ([] ++ plainRoute1 :: [plainRoute2]) "" none false)
        ctxEmpty emptyMatch
      = Route.Match plainRoute1 ctxEmpty emptyMatch ∧
    (Route.Match plainRoute2 ctxEmpty emptyMatch).1 = true ∧
    (Route.Match plainRoute1 ctxEmpty emptyMatch).2.2.Handler = some 1 :=
  ⟨first_match_wins [] [plainRoute2] plainRoute1 "" false ctxEmpty emptyMatch
      (by intro r hr; simp at hr) rfl, rfl, rfl⟩

/-- **C7** (confirmed): whenever `SimpleRouter.Match` reports no-match
(sticky error, zero routes, or all routes failing), the context it returns
is exactly the input context, even if routes' preprocessors or matchers
transformed their local copy before failing. -/
theorem router_no_match_returns_ctx_unchanged (s : SimpleRouter) (ctx : Context)
    (m : RouteMatch) (hf : (SimpleRouter.Match s ctx m).1 = false) :
    (SimpleRouter.Match s ctx m).2.1 = ctx := by
  obtain ⟨rs, b, e, t⟩ := s
  cases e with
  | some er =>
    have hres : SimpleRouter.Match (.mk rs b (some er) t) ctx m = (false, ctx, m) := by
      rw [SimpleRouter.Match.eq_1]; simp
    rw [hres]
  | none =>
    have hres : SimpleRouter.Match (.mk rs b none t) ctx m = routesRun rs ctx m := by
      rw [SimpleRouter.Match.eq_1]; simp
    rw [hres] at hf ⊢
    exact routesRun_ctx_of_false rs ctx m hf

theorem router_no_match_returns_ctx_unchanged_witness :
    (SimpleRouter.Match failRouter ctxEmpty emptyMatch).2.1 = ctxEmpty :=
  router_no_match_returns_ctx_unchanged failRouter ctxEmpty emptyMatch rfl

/-- **C10** (confirmed): for routes and routers alike, the output record is
written only on a full match: on `matched = false` its `Route` and `Handler`
fields are exactly as before the call, and on `matched = true` both fields
have been set by the innermost matching route (whose handler is non-nil). -/
theorem routeMatch_written_only_on_full_match (r : Route) (s : SimpleRouter)
    (ctx : Context) (m : RouteMatch) :
    (((Route.Match r ctx m).1 = false → (Route.Match r ctx m).2.2 = m) ∧
     ((Route.Match r ctx m).1 = true →
        ∃ rt hh, (Route.Match r ctx m).2.2 = ⟨some rt, some hh⟩ ∧ rt.handler = some hh)) ∧
    (((SimpleRouter.Match s ctx m).1 = false → (SimpleRouter.Match s ctx m).2.2 = m) ∧
     ((SimpleRouter.Match s ctx m).1 = true →
        ∃ rt hh, (SimpleRouter.Match s ctx m).2.2 = ⟨some rt, some hh⟩ ∧
          rt.handler = some hh)) :=
  ⟨route_match_frame r ctx m, router_match_frame s ctx m⟩

theorem routeMatch_written_only_on_full_match_witness :
    (Route.Match gateRouteNoHandler ctxEmpty preloadedMatch).2.2 = preloadedMatch ∧
    (SimpleRouter.Match failRouter ctxEmpty preloadedMatch).2.2 = preloadedMatch :=
  ⟨(routeMatch_written_only_on_full_match gateRouteNoHandler failRouter ctxEmpty
      preloadedMatch).1.1 rfl,
   (routeMatch_written_only_on_full_match gateRouteNoHandler failRouter ctxEmpty
      preloadedMatch).2.1 rfl⟩

/-- **C6** (confirmed): on a route with self-talk disabled, an event authored
by the configured bot identity is rejected before the preprocessor runs and
before any matcher is consulted — the result is `(false, ctx, m)` with the
context and output record untouched, for EVERY choice of matchers,
preprocessor and subrouter; flipping only the self-talk flag (all else
equal) makes the same event match. -/
theorem selftalk_filter_precedes_preprocessor_and_matchers
    (hv : Handler) (b : String) (ctx ctx2 : Context) (m : RouteMatch) (ev : MessageEvent)
    (hmsg : MessageFromContext ctx = some ev) (huser : ev.User = b)
    (ms : List Matcher) (pre : Option (Context → Context))
    (hmr : matchersRun ms (applyPre pre ctx) = (true, ctx2)) :
    (∀ (ms2 : List Matcher) (pre2 : Option (Context → Context))
        (sub2 : Option SimpleRouter),
      Route.Match (.mk (some hv) none ms2 sub2 pre2 b false) ctx m = (false, ctx, m)) ∧
    Route.Match (.mk (some hv) none ms none pre b true) ctx m
      = (true, ctx2, ⟨some (.mk (some hv) none ms none pre b true), some hv⟩) := by
  have hst1 : selfTalkBlock false b ctx = true := by
    simp [selfTalkBlock, hmsg, huser]
  have hst2 : selfTalkBlock true b ctx = false := by
    simp [selfTalkBlock, hmsg]
  constructor
  · intro ms2 pre2 sub2
    rw [Route.Match.eq_1]
    simp [hst1]
  · rw [Route.Match.eq_1]
    simp [hst2, hmr]

theorem selftalk_filter_precedes_preprocessor_and_matchers_witness :
    Route.Match (.mk (some 4) none [alwaysFalseMatcher] none none "U1" false)
        ctxWithMsg emptyMatch = (false, ctxWithMsg, emptyMatch) ∧
    Route.Match (.mk (some 4) none [] none none "U1" true) ctxWithMsg emptyMatch
      = (true, ctxWithMsg, ⟨some (.mk (some 4) none [] none none "U1" true), some 4⟩) := by
  have hx := selftalk_filter_precedes_preprocessor_and_matchers 4 "U1" ctxWithMsg
    ctxWithMsg emptyMatch demoMsg rfl rfl [] none rfl
  exact ⟨hx.1 [alwaysFalseMatcher] none none, hx.2⟩

/-- **C8** (confirmed): `AlwaysTalkToSelf`/`NeverTalkToSelf` mutate only the
Router's default flag: the already-registered routes are left exactly as they
are (snapshot-at-creation), while each route-creating builder (`Hear`,
`Messages`, `AddMatcher`, `Handler`) appends a fresh route carrying the
Router's current default self-talk flag. -/
theorem talkToSelf_default_snapshot_at_creation (s : SimpleRouter)
    (res : Except GoError Regexp) (tys : List MessageType) (mm : Matcher)
    (hv : Handler) :
    (s.AlwaysTalkToSelf.routes = s.routes) ∧
    (s.NeverTalkToSelf.routes = s.routes) ∧
    (s.AlwaysTalkToSelf.talkToSelf = true) ∧
    (s.NeverTalkToSelf.talkToSelf = false) ∧
    ((s.Hear res).1.routes = s.routes ++ [(newRouteVal s.talkToSelf s.err).Hear res]) ∧
    ((s.Messages tys).1.routes
      = s.routes ++ [(newRouteVal s.talkToSelf s.err).Messages tys]) ∧
    ((s.AddMatcher mm).1.routes
      = s.routes ++ [(newRouteVal s.talkToSelf s.err).AddMatcher mm]) ∧
    ((s.Handler hv).1.routes
      = s.routes ++ [((newRouteVal s.talkToSelf s.err).Handler hv).1]) ∧
    (((newRouteVal s.talkToSelf s.err).Hear res).talkToSelf = s.talkToSelf) ∧
    (((newRouteVal s.talkToSelf s.err).Messages tys).talkToSelf = s.talkToSelf) ∧
    (((newRouteVal s.talkToSelf s.err).AddMatcher mm).talkToSelf = s.talkToSelf) ∧
    ((((newRouteVal s.talkToSelf s.err).Handler hv).1).talkToSelf = s.talkToSelf) := by
  obtain ⟨rs, b, e, t⟩ := s
  cases e <;> cases res <;>
    exact ⟨rfl, rfl, rfl, rfl, rfl, rfl, rfl, rfl, rfl, rfl, rfl, rfl⟩

/-- **C9** (confirmed): storing a bot or message-event reference via the
add-to-context accessor and retrieving it via the corresponding
from-context accessor yields exactly the stored reference; retrieving from a
context with no such reference (empty, or holding only the other kind)
returns `none` (Go `nil`) rather than failing. -/
theorem context_accessors_roundtrip (ctx : Context) (b : Bot) (msg : MessageEvent) :
    BotFromContext (AddBotToContext ctx b) = some b ∧
    MessageFromContext (AddMessageToContext ctx msg) = some msg ∧
    BotFromContext ⟨[]⟩ = none ∧
    MessageFromContext ⟨[]⟩ = none ∧
    BotFromContext (AddMessageToContext ctx msg) = BotFromContext ctx ∧
    MessageFromContext (AddBotToContext ctx b) = MessageFromContext ctx := by
  refine ⟨?_, ?_, rfl, rfl, ?_, ?_⟩ <;>
    simp [BotFromContext, MessageFromContext, AddBotToContext, AddMessageToContext,
      Context.withValue, Context.value, bot_context_key, message_context_key,
      List.find?]

/-- **C1** counterexample: `gateRouteNoHandler` has one (always-true)
matcher and an attached subrouter that reports a match, yet `Route.Match`
returns no-match, because the nil-handler check precedes the subrouter
delegation — contradicting the claim that the outer route need not have a
handler of its own for delegation to occur. -/
theorem subrouter_without_handler_never_matches_cex :
    Route.Match gateRouteNoHandler ctxEmpty emptyMatch = (false, ctxEmpty, emptyMatch) ∧
    matchersRun (Route.matchers gateRouteNoHandler)
        (applyPre (Route.preprocessor gateRouteNoHandler) ctxEmpty) = (true, ctxEmpty) ∧
    (SimpleRouter.Match demoSub ctxEmpty emptyMatch).1 = true :=
  ⟨rfl, rfl, rfl⟩

/-- **C1** (corrected): delegation additionally requires the outer route to
hold a (non-nil) handler of its own.  For a route with a handler, no sticky
error, matchers `ms` and subrouter `sub`, whose self-talk guard passes: if
the matchers all pass, the route's result IS the subrouter's `Match` result
(so the handler placed in the output record is the subrouter's matched
handler, not the outer route's); if a matcher fails, the route fails. -/
theorem subrouter_delegation_gated_by_handler
    (hv : Handler) (ms : List Matcher) (sub : SimpleRouter)
    (pre : Option (Context → Context)) (b : String) (t : Bool)
    (ctx ctx2 : Context) (m : RouteMatch)
    (hst : selfTalkBlock t b ctx = false) :
    (matchersRun ms (applyPre pre ctx) = (true, ctx2) →
      Route.Match (.mk (some hv) none ms (some sub) pre b t) ctx m
        = SimpleRouter.Match sub ctx2 m) ∧
    (matchersRun ms (applyPre pre ctx) = (false, ctx2) →
      Route.Match (.mk (some hv) none ms (some sub) pre b t) ctx m = (false, ctx2, m)) := by
  constructor <;> intro hmr <;> rw [Route.Match.eq_1] <;> simp [hst, hmr]

theorem subrouter_delegation_gated_by_handler_witness :
    Route.Match gateRouteWithHandler ctxEmpty emptyMatch
      = SimpleRouter.Match demoSub ctxEmpty emptyMatch ∧
    (SimpleRouter.Match demoSub ctxEmpty emptyMatch).2.2.Handler = some 7 := by
  have hx := subrouter_delegation_gated_by_handler 9 [alwaysTrueMatcher] demoSub none
    "" false ctxEmpty ctxEmpty emptyMatch rfl
  exact ⟨hx.1 rfl, rfl⟩

/-- **C2** counterexample: `Hear` with a failing compile on a fresh route
sets the sticky error but STILL appends a pattern matcher (with a nil
regex) — contradicting the claim that no pattern matcher is appended. -/
theorem hear_failure_appends_matcher_cex :
    (Route.Hear emptyRoute (Except.error "x")).err = some "x" ∧
    (Route.Hear emptyRoute (Except.error "x")).matchers.length = 1 ∧
    emptyRoute.matchers.length = 0 :=
  ⟨rfl, rfl, rfl⟩

/-- **C2** (corrected): a failing compile in `Hear` assigns the sticky error
and still appends a `RegexpMatcher` holding a nil regex (leaving the handler
untouched); of the builder calls, it is `Handler` that is a no-op returning
the stored error on a route whose build error is already set.  (Matching
stays fail-closed on such a route, per the C4 theorem.) -/
theorem hear_failure_sets_error_and_handler_is_noop
    (r1 r2 : Route) (e e0 : GoError) (hv : Handler) (h2 : r2.err = some e0) :
    ((r1.Hear (.error e)).err = some e ∧
     (r1.Hear (.error e)).matchers = r1.matchers ++ [.regexpM none ""] ∧
     (r1.Hear (.error e)).handler = r1.handler) ∧
    r2.Handler hv = (r2, some e0) := by
  obtain ⟨h, e1, ms, sub, pre, b, t⟩ := r1
  obtain ⟨hf, e2, ms2, sub2, pre2, b2, t2⟩ := r2
  simp only [Route.err] at h2
  subst h2
  exact ⟨⟨rfl, rfl, rfl⟩, rfl⟩

theorem hear_failure_sets_error_and_handler_is_noop_witness :
    ((emptyRoute.Hear (Except.error "x")).err = some "x" ∧
     (emptyRoute.Hear (Except.error "x")).matchers
        = emptyRoute.matchers ++ [.regexpM none ""] ∧
     (emptyRoute.Hear (Except.error "x")).handler = emptyRoute.handler) ∧
    erroredRoute.Handler 6 = (erroredRoute, some "boom") :=
  hear_failure_sets_error_and_handler_is_noop emptyRoute erroredRoute "x" "boom" 6 rfl

/-- **C3** counterexample: `SetBotID` on a router whose route owns a nested
subrouter leaves that subrouter exactly as it was: the subrouter's own route
still carries the zero-value identity `""`, not the broadcast `"B"` —
contradicting the claimed transitive propagation into subrouters. -/
theorem setBotID_skips_subrouter_cex :
    (routerWithSub.SetBotID "B").routes.map Route.subrouter = [some innerSub] ∧
    innerSub.routes.map Route.botUserID = [""] ∧
    ("" : String) ≠ "B" :=
  ⟨rfl, rfl, by decide⟩

/-- **C3** (corrected): `SetBotID id` stores `id` on the router and rewrites
every currently-registered route with `Route.setBotID id`, which stores `id`
on the route and on every owned matcher — but leaves the route's subrouter
(and hence the subrouter's routes and matchers) untouched. -/
theorem setBotID_propagates_to_routes_and_matchers
    (s : SimpleRouter) (r : Route) (mm : Matcher) (id : String) :
    ((s.SetBotID id).botUserID = id ∧
     (s.SetBotID id).routes = s.routes.map (fun r2 => r2.setBotID id)) ∧
    ((r.setBotID id).botUserID = id ∧
     (r.setBotID id).matchers = r.matchers.map (fun m2 => m2.SetBotID id) ∧
     (r.setBotID id).subrouter = r.subrouter ∧
     (r.setBotID id).err = r.err ∧
     (r.setBotID id).handler = r.handler) ∧
    (mm.SetBotID id).botUserID = id := by
  obtain ⟨rs, b, e, t⟩ := s
  obtain ⟨h, e2, ms, sub, pre, b2, t2⟩ := r
  cases mm <;> exact ⟨⟨rfl, rfl⟩, ⟨rfl, rfl, rfl, rfl, rfl⟩, rfl⟩

end Slackbot
